import Mathlib

/-!
Verification of the identity/authentication core of the `sso` repository
(`internal/services/auth/auth.go`) against its natural-language specification.

The Go service layer is embedded shallowly: each public operation of the
`Auth` service becomes a pure Lean function from an explicit store state to
an outcome record carrying the returned value, the resulting store state,
the list of store operations issued, and the log lines emitted.  Go errors
become an inductive type that keeps the distinctions the Go code keeps:
sentinel errors, `fmt.Errorf("%s: %w", ...)` wrapping (which preserves the
wrapped error for `errors.Is`), and `fmt.Errorf("%s: %s", ...)` formatting
(which does not).  The storage layer itself is not part of the supplied
source; its behaviour is modelled from the spec's collaborator contracts.
-/

/-- Error values observable by a caller of the auth service.  Sentinels
mirror the `errors.New` values of the auth package and of the storage
package; `wrapped op e` embeds `fmt.Errorf("%s: %w", op, e)` (the wrapped
error stays reachable through `errors.Is` / `errors.Unwrap`);
`strFormatted op msg` embeds `fmt.Errorf("%s: %s", op, err)`, which keeps
only the message text of `err`; `otherErr` stands for an arbitrary
lower-level (driver) error. -/
inductive GoErr : Type where
  | errInvalidCredentials : GoErr
  | errUserExists : GoErr
  | errUserNotFound : GoErr
  | errAppExist : GoErr
  | errInvalidRoles : GoErr
  | storageErrUserNotFound : GoErr
  | storageErrUserExist : GoErr
  | storageErrAppExist : GoErr
  | storageErrAppNotFound : GoErr
  | otherErr : String → GoErr
  | wrapped : String → GoErr → GoErr
  | strFormatted : String → String → GoErr
  deriving DecidableEq, Repr

/-- User record as held by the credential store: unique id, email (lookup
key), password hash (opaque bytes, modelled as a string), role names. -/
structure User : Type where
  id : Int
  email : String
  passHash : String
  roles : List String
  deriving DecidableEq, Repr

/-- Application record: unique id, name, shared signing secret. -/
structure App : Type where
  id : Int
  name : String
  secret : String
  deriving DecidableEq, Repr

/-- Modelled from the spec: the Credential Store Adapter's durable state
(the storage implementation is outside the supplied source).  Users and
apps are kept as lists looked up by email resp. id; `nextUserId` and
`nextAppId` model the storage-assigned identifiers. -/
structure Store : Type where
  users : List User
  apps : List App
  nextUserId : Int
  nextAppId : Int
  deriving DecidableEq, Repr

/-- Looks a user up by email. -/
def Store.findUser (st : Store) (email : String) : Option User :=
  st.users.find? (fun u => u.email == email)

/-- Modelled from the spec: `fetch-user-by-email` — returns the user
record, failure signal `not-found`. -/
def Store.user (st : Store) (email : String) : Except GoErr User :=
  match st.findUser email with
  | some u => .ok u
  | none => .error .storageErrUserNotFound

/-- Modelled from the spec: `fetch-app-by-id` — returns the app record,
failure signal `not-found`. -/
def Store.app (st : Store) (appID : Int) : Except GoErr App :=
  match st.apps.find? (fun a => a.id == appID) with
  | some a => .ok a
  | none => .error .storageErrAppNotFound

/-- Modelled from the spec: `save-user` — persists (email, hash), assigns
the id, failure signal `email-already-exists`. -/
def Store.saveUser (st : Store) (email passHash : String) :
    Except GoErr Int × Store :=
  match st.findUser email with
  | some _ => (.error .storageErrUserExist, st)
  | none =>
      (.ok st.nextUserId,
       { st with
          users := st.users ++ [⟨st.nextUserId, email, passHash, []⟩],
          nextUserId := st.nextUserId + 1 })

/-- Modelled from the spec: `delete-user` — removes the record, failure
signal `not-found`. -/
def Store.deleteUser (st : Store) (email : String) :
    Except GoErr Unit × Store :=
  match st.findUser email with
  | some _ =>
      (.ok (), { st with users := st.users.filter (fun u => u.email != email) })
  | none => (.error .storageErrUserNotFound, st)

/-- Modelled from the spec: `set-roles` — replaces the user's role set
with the given list, failure signal `not-found`. -/
def Store.setRoles (st : Store) (email : String) (roles : List String) :
    Except GoErr Unit × Store :=
  match st.findUser email with
  | some _ =>
      (.ok (),
       { st with
          users := st.users.map
            (fun u => if u.email == email then { u with roles := roles } else u) })
  | none => (.error .storageErrUserNotFound, st)

/-- Modelled from the spec: `get-roles` — returns the user's role list,
failure signal `not-found`. -/
def Store.getRoles (st : Store) (email : String) : Except GoErr (List String) :=
  match st.findUser email with
  | some u => .ok u.roles
  | none => .error .storageErrUserNotFound

/-- Modelled from the spec: `save-app` — persists (name, secret), assigns
the id, failure signal `name-already-exists`. -/
def Store.saveApp (st : Store) (name secret : String) :
    Except GoErr Int × Store :=
  match st.apps.find? (fun a => a.name == name) with
  | some _ => (.error .storageErrAppExist, st)
  | none =>
      (.ok st.nextAppId,
       { st with
          apps := st.apps ++ [⟨st.nextAppId, name, secret⟩],
          nextAppId := st.nextAppId + 1 })

/-- Modelled from the spec: the Password Hasher's one-way salted hash
(`bcrypt.GenerateFromPassword`); the hash is opaque to the core, so an
injective tagging function suffices for the embedding. -/
def generateFromPassword (password : String) : String :=
  "bcrypt$" ++ password

/-- Modelled from the spec: the Password Hasher's verification
(`bcrypt.CompareHashAndPassword`): compares a plaintext candidate against
a stored hash; `true` means the comparison succeeded (the Go call returned
a nil error). -/
def compareHashAndPassword (hash password : String) : Bool :=
  hash == generateFromPassword password

/-- Modelled from the spec: the Token Issuer (`jwtlocal.NewToken`): mints
a signed token binding the user's identity and the app's secret.  The
token's content is irrelevant to the claims; minting succeeds here. -/
def newToken (u : User) (a : App) : Except GoErr String :=
  .ok ("token(" ++ u.email ++ "," ++ toString a.id ++ "," ++ a.secret ++ ")")

/-- One operation issued by the service against the credential store,
recorded so that read-only behaviour is provable rather than assumed. -/
inductive StoreOp : Type where
  | fetchUser : String → StoreOp
  | fetchApp : Int → StoreOp
  | saveUserW : String → StoreOp
  | deleteUserW : String → StoreOp
  | setRolesW : String → List String → StoreOp
  | getRolesR : String → StoreOp
  | saveAppW : String → StoreOp
  deriving DecidableEq, Repr

/-- Whether a store operation is a pure read (`fetch-user-by-email`,
`fetch-app-by-id`, `get-roles`). -/
def StoreOp.isRead : StoreOp → Bool
  | .fetchUser _ => true
  | .fetchApp _ => true
  | .getRolesR _ => true
  | _ => false

/-- Result of one service operation: the value returned to the caller, the
store state after the call, the store operations issued, and the log lines
emitted (message strings, in order). -/
structure Outcome (α : Type) : Type where
  res : Except GoErr α
  store : Store
  ops : List StoreOp
  log : List String
  deriving Repr

namespace Auth

/-- Embeds `Auth.Login` (auth.go lines 66-106).  Fetches the user by
email; `storage.ErrUserNotFound` becomes wrapped `ErrInvalidCredentials`,
any other fetch error is wrapped and propagated.  A failed hash comparison
logs `string(user.PassHash)` and returns wrapped `ErrInvalidCredentials`.
The app fetch error and the token-mint error are wrapped and propagated
as-is.  `op` is the constant `"auth.Login"`. -/
def login (st : Store) (email password : String) (appID : Int) :
    Outcome String :=
  let log0 := ["attempting to login user"]
  match st.user email with
  | .error e =>
      if e = .storageErrUserNotFound then
        { res := .error (.wrapped "auth.Login" .errInvalidCredentials),
          store := st, ops := [.fetchUser email],
          log := log0 ++ ["not corrected login/password 1"] }
      else
        { res := .error (.wrapped "auth.Login" e),
          store := st, ops := [.fetchUser email],
          log := log0 ++ ["failed to get user"] }
  | .ok user =>
      if compareHashAndPassword user.passHash password then
        match st.app appID with
        | .error e =>
            { res := .error (.wrapped "auth.Login" e),
              store := st, ops := [.fetchUser email, .fetchApp appID],
              log := log0 }
        | .ok app =>
            match newToken user app with
            | .error e =>
                { res := .error (.wrapped "auth.Login" e),
                  store := st, ops := [.fetchUser email, .fetchApp appID],
                  log := log0 ++ ["successfully login user", "cannot generate token"] }
            | .ok tok =>
                { res := .ok tok,
                  store := st, ops := [.fetchUser email, .fetchApp appID],
                  log := log0 ++ ["successfully login user"] }
      else
        { res := .error (.wrapped "auth.Login" .errInvalidCredentials),
          store := st, ops := [.fetchUser email],
          log := log0 ++ [user.passHash] }

/-- Embeds `Auth.RegisterNewUser` (auth.go lines 108-137): hash the
password, save (email, hash); `storage.ErrUserExist` becomes wrapped
`ErrUserExists`, any other save error is wrapped and propagated; success
returns the id assigned by the store. -/
def registerNewUser (st : Store) (email password : String) : Outcome Int :=
  let log0 := ["registering new user"]
  let passHash := generateFromPassword password
  match st.saveUser email passHash with
  | (.error e, st1) =>
      if e = .storageErrUserExist then
        { res := .error (.wrapped "auth.RegisterNewUser" .errUserExists),
          store := st1, ops := [.saveUserW email],
          log := log0 ++ ["user already exist"] }
      else
        { res := .error (.wrapped "auth.RegisterNewUser" e),
          store := st1, ops := [.saveUserW email],
          log := log0 ++ ["failed to save user"] }
  | (.ok uid, st1) =>
      { res := .ok uid, store := st1, ops := [.saveUserW email],
        log := log0 ++ ["successfully register user"] }

/-- Embeds `Auth.CreateApp` (auth.go lines 159-177): save (name, secret);
`storage.ErrAppExist` becomes wrapped `ErrAppExist`, any other save error
is wrapped and propagated.  The source's `op` constant is `"auth.NewApp"`. -/
def createApp (st : Store) (name secret : String) : Outcome Int :=
  match st.saveApp name secret with
  | (.error e, st1) =>
      if e = .storageErrAppExist then
        { res := .error (.wrapped "auth.NewApp" .errAppExist),
          store := st1, ops := [.saveAppW name],
          log := ["app already exist"] }
      else
        { res := .error (.wrapped "auth.NewApp" e),
          store := st1, ops := [.saveAppW name],
          log := ["error adding a new app to the database"] }
  | (.ok appId, st1) =>
      { res := .ok appId, store := st1, ops := [.saveAppW name],
        log := ["success create new app"] }

/-- Whether a role belongs to the fixed vocabulary tested by the `SetRoles`
loop (auth.go line 188): `"admin"`, `"user"`, `"manager"`. -/
def validRole (r : String) : Bool :=
  r == "admin" || r == "user" || r == "manager"

/-- Embeds `Auth.SetRoles` (auth.go lines 179-205).  The source iterates
over `roles` and returns `fmt.Errorf("%s: %s", op, ErrInvalidRoles)` at
the first role outside the vocabulary, before any store call; this is the
`roles.all validRole = false` branch here (the store is not consulted and
one `"invalid role"` line is logged, as the loop's early return does).
Otherwise the list is forwarded unchanged to the store's `SetRoles`;
`storage.ErrUserNotFound` becomes wrapped `ErrInvalidCredentials`, any
other store error is wrapped and propagated. -/
def setRoles (st : Store) (email : String) (roles : List String) :
    Outcome Unit :=
  if roles.all validRole then
    match st.setRoles email roles with
    | (.error e, st1) =>
        if e = .storageErrUserNotFound then
          { res := .error (.wrapped "auth.SetRoles" .errInvalidCredentials),
            store := st1, ops := [.setRolesW email roles],
            log := ["failed to set roles"] }
        else
          { res := .error (.wrapped "auth.SetRoles" e),
            store := st1, ops := [.setRolesW email roles],
            log := ["failed to set roles"] }
    | (.ok _, st1) =>
        { res := .ok (), store := st1, ops := [.setRolesW email roles],
          log := ["successfully set roles for user"] }
  else
    { res := .error (.strFormatted "auth.SetRoles" "invalid roles"),
      store := st, ops := [], log := ["invalid role"] }

/-- Embeds `Auth.GetRoles` (auth.go lines 207-226): fetch the role list;
`storage.ErrUserNotFound` becomes wrapped `ErrInvalidCredentials`, any
other store error is wrapped and propagated. -/
def getRoles (st : Store) (email : String) : Outcome (List String) :=
  match st.getRoles email with
  | .error e =>
      if e = .storageErrUserNotFound then
        { res := .error (.wrapped "auth.GetRoles" .errInvalidCredentials),
          store := st, ops := [.getRolesR email],
          log := ["failed to get roles"] }
      else
        { res := .error (.wrapped "auth.GetRoles" e),
          store := st, ops := [.getRolesR email],
          log := ["failed to get roles"] }
  | .ok roles =>
      { res := .ok roles, store := st, ops := [.getRolesR email],
        log := ["successfully got roles for user"] }

/-- Embeds `Auth.DeleteUser` (auth.go lines 228-246): delete by email;
`storage.ErrUserNotFound` becomes wrapped `ErrInvalidCredentials`, any
other store error is wrapped and propagated.  The source's `op` constant
is (mistakenly, but faithfully kept) `"auth.GetRoles"`. -/
def deleteUser (st : Store) (email : String) : Outcome Unit :=
  match st.deleteUser email with
  | (.error e, st1) =>
      if e = .storageErrUserNotFound then
        { res := .error (.wrapped "auth.GetRoles" .errInvalidCredentials),
          store := st1, ops := [.deleteUserW email],
          log := ["failed delete user"] }
      else
        { res := .error (.wrapped "auth.GetRoles" e),
          store := st1, ops := [.deleteUserW email],
          log := ["failed delete user"] }
  | (.ok _, st1) =>
      { res := .ok (), store := st1, ops := [.deleteUserW email],
        log := [] }

/-- The error-translation layer of `Auth.Login` (auth.go lines 77-105) as
a function of the collaborator call outcomes, which are interface calls in
the source (`usrProvider.User`, `appProvider.App`, `jwtlocal.NewToken`);
the branch structure is that of `Auth.login`. -/
def loginT (userRes : Except GoErr User) (password : String)
    (appRes : Except GoErr App) (mintRes : Except GoErr String) :
    Except GoErr String :=
  match userRes with
  | .error e =>
      if e = .storageErrUserNotFound then
        .error (.wrapped "auth.Login" .errInvalidCredentials)
      else .error (.wrapped "auth.Login" e)
  | .ok user =>
      if compareHashAndPassword user.passHash password then
        match appRes with
        | .error e => .error (.wrapped "auth.Login" e)
        | .ok _ =>
            match mintRes with
            | .error e => .error (.wrapped "auth.Login" e)
            | .ok tok => .ok tok
      else .error (.wrapped "auth.Login" .errInvalidCredentials)

/-- The error-translation layer of `Auth.RegisterNewUser` (auth.go lines
124-136) as a function of the store's save outcome (`usrSaver.SaveUser`
is an interface call in the source); the branch structure is that of
`Auth.registerNewUser`. -/
def registerT (saveRes : Except GoErr Int) : Except GoErr Int :=
  match saveRes with
  | .error e =>
      if e = .storageErrUserExist then
        .error (.wrapped "auth.RegisterNewUser" .errUserExists)
      else .error (.wrapped "auth.RegisterNewUser" e)
  | .ok uid => .ok uid

/-- The error-translation layer of `Auth.CreateApp` (auth.go lines
164-176) as a function of the store's save outcome (`appSaver.SaveApp` is
an interface call in the source); the branch structure is that of
`Auth.createApp`.  The source's `op` constant is `"auth.NewApp"`. -/
def createAppT (saveRes : Except GoErr Int) : Except GoErr Int :=
  match saveRes with
  | .error e =>
      if e = .storageErrAppExist then
        .error (.wrapped "auth.NewApp" .errAppExist)
      else .error (.wrapped "auth.NewApp" e)
  | .ok appId => .ok appId

/-- The error-translation layer of `Auth.SetRoles` (auth.go lines
187-204) as a function of the store call's outcome
(`usrProvider.SetRoles` is an interface call in the source): the
vocabulary loop runs first and rejects with the string-formatted
invalid-roles failure before the store is consulted; otherwise
`storage.ErrUserNotFound` becomes wrapped `ErrInvalidCredentials` and any
other store error is wrapped and propagated. -/
def setRolesT (roles : List String) (setRes : Except GoErr Unit) :
    Except GoErr Unit :=
  if roles.all validRole then
    match setRes with
    | .error e =>
        if e = .storageErrUserNotFound then
          .error (.wrapped "auth.SetRoles" .errInvalidCredentials)
        else .error (.wrapped "auth.SetRoles" e)
    | .ok _ => .ok ()
  else .error (.strFormatted "auth.SetRoles" "invalid roles")

/-- The error-translation layer of `Auth.GetRoles` (auth.go lines
215-225) as a function of the store call's outcome
(`usrProvider.GetRoles` is an interface call in the source):
`storage.ErrUserNotFound` becomes wrapped `ErrInvalidCredentials`, any
other store error is wrapped and propagated. -/
def getRolesT (getRes : Except GoErr (List String)) :
    Except GoErr (List String) :=
  match getRes with
  | .error e =>
      if e = .storageErrUserNotFound then
        .error (.wrapped "auth.GetRoles" .errInvalidCredentials)
      else .error (.wrapped "auth.GetRoles" e)
  | .ok roles => .ok roles

/-- The error-translation layer of `Auth.DeleteUser` (auth.go lines
236-245) as a function of the store call's outcome
(`usrProvider.DeleteUser` is an interface call in the source):
`storage.ErrUserNotFound` becomes wrapped `ErrInvalidCredentials`, any
other store error is wrapped and propagated.  The source's `op` constant
is (mistakenly, but faithfully kept) `"auth.GetRoles"`. -/
def deleteUserT (delRes : Except GoErr Unit) : Except GoErr Unit :=
  match delRes with
  | .error e =>
      if e = .storageErrUserNotFound then
        .error (.wrapped "auth.GetRoles" .errInvalidCredentials)
      else .error (.wrapped "auth.GetRoles" e)
  | .ok _ => .ok ()

end Auth

/-- Removes the operation labels added by `fmt.Errorf("%s: %w", op, err)`,
exposing the underlying error value — exactly what a Go caller reaches
with `errors.Is` / `errors.Unwrap`. -/
def GoErr.unwrapLabels : GoErr → GoErr
  | .wrapped _ e => e.unwrapLabels
  | e => e

/-- Whether an error value is a storage-layer failure (a storage package
sentinel or a raw driver error), as opposed to one of the auth package's
own caller-facing sentinels. -/
def storageLayer : GoErr → Bool
  | .storageErrUserNotFound => true
  | .storageErrUserExist => true
  | .storageErrAppExist => true
  | .storageErrAppNotFound => true
  | .otherErr _ => true
  | _ => false

/-- Follows the spec words (section 7): a caller-facing failure value is
within the four-kind taxonomy, and not storage-specific, when after
removing operation labels it is one of the auth sentinels
(`InvalidCredentials`, `UserExists`/`AppExists`, `InvalidRoles`; an
`InvalidRoles` rejection may also be string-formatted with that message).
A value that still unwraps to a storage sentinel or a driver error is
outside the taxonomy: it leaks a storage-specific error value. -/
def specFourKindsOnly (e : GoErr) : Bool :=
  match e.unwrapLabels with
  | .errInvalidCredentials => true
  | .errUserExists => true
  | .errAppExist => true
  | .errInvalidRoles => true
  | .strFormatted _ msg => msg == "invalid roles"
  | _ => false

/-- Whether a returned failure still carries a storage-layer error value
reachable through the operation labels, i.e. a Go caller could
distinguish it with `errors.Is` against a storage sentinel or observe the
raw driver error. -/
def carriesStorageError (e : GoErr) : Bool :=
  storageLayer e.unwrapLabels

/-- The taxonomy of caller-distinguishable failure kinds named by the
spec (section 7). -/
inductive SpecKind : Type where
  | invalidCredentials : SpecKind
  | userExists : SpecKind
  | appExists : SpecKind
  | invalidRoles : SpecKind
  | internal : SpecKind
  deriving DecidableEq, Repr

/-- Follows the spec words (section 7): classifies a caller-facing
failure value into the taxonomy; `Internal` is the catch-all kind, "any
other propagated failure". -/
def specKind (e : GoErr) : SpecKind :=
  match e.unwrapLabels with
  | .errInvalidCredentials => .invalidCredentials
  | .errUserExists => .userExists
  | .errAppExist => .appExists
  | .errInvalidRoles => .invalidRoles
  | .strFormatted _ msg =>
      if msg == "invalid roles" then .invalidRoles else .internal
  | _ => .internal

/-- Sample store: one registered user `a@x.com` with password `pw123` and
one app with id 1. -/
def stOne : Store :=
  { users := [⟨1, "a@x.com", generateFromPassword "pw123", []⟩],
    apps := [⟨1, "appA", "secretA"⟩],
    nextUserId := 2, nextAppId := 2 }

/-- Sample store: empty. -/
def stEmpty : Store :=
  { users := [], apps := [], nextUserId := 1, nextAppId := 1 }

theorem find?_filter_ne (l : List User) (email : String) :
    (l.filter (fun u => u.email != email)).find? (fun u => u.email == email)
      = none := by
  induction l with
  | nil => rfl
  | cons u t ih =>
      by_cases h : u.email = email
      · simp [List.filter_cons, h, ih]
      · simp [List.filter_cons, List.find?_cons, h, ih]

theorem find?_map_setRoles (l : List User) (email : String)
    (roles : List String) :
    (l.map (fun u =>
        if u.email == email then { u with roles := roles } else u)).find?
          (fun u => u.email == email)
      = (l.find? (fun u => u.email == email)).map
          (fun u => { u with roles := roles }) := by
  induction l with
  | nil => rfl
  | cons u t ih =>
      by_cases h : u.email = email
      · simp [List.find?_cons, h]
      · rw [List.map_cons, if_neg (by simp [h]),
            List.find?_cons_of_neg _ (by simp [h]),
            List.find?_cons_of_neg _ (by simp [h]), ih]

theorem storageLayer_unwrapLabels (e : GoErr) (h : storageLayer e = true) :
    e.unwrapLabels = e := by
  cases e <;> simp_all [storageLayer, GoErr.unwrapLabels]

/-- C1: Login with an email that has no stored user and Login with a
registered email but a non-matching password return the same wrapped
`ErrInvalidCredentials` value, so the caller cannot distinguish the two
cases from the returned failure. -/
theorem login_unknown_user_wrong_password_same_error
    (st1 : Store) (email1 pw1 : String) (app1 : Int)
    (st2 : Store) (email2 pw2 : String) (app2 : Int) (u : User)
    (h1 : st1.findUser email1 = none)
    (h2 : st2.findUser email2 = some u)
    (h3 : compareHashAndPassword u.passHash pw2 = false) :
    (Auth.login st1 email1 pw1 app1).res
        = .error (.wrapped "auth.Login" .errInvalidCredentials)
      ∧ (Auth.login st2 email2 pw2 app2).res
        = (Auth.login st1 email1 pw1 app1).res := by
  have e1 : (Auth.login st1 email1 pw1 app1).res
      = .error (.wrapped "auth.Login" .errInvalidCredentials) := by
    simp [Auth.login, Store.user, h1]
  have e2 : (Auth.login st2 email2 pw2 app2).res
      = .error (.wrapped "auth.Login" .errInvalidCredentials) := by
    simp [Auth.login, Store.user, h2, h3]
  exact ⟨e1, e2.trans e1.symm⟩

/-- Witness for C1: concrete unknown email against a concrete registered
user given a wrong password. -/
theorem login_unknown_user_wrong_password_same_error_witness :
    (Auth.login stEmpty "b@x.com" "pw" 1).res
        = .error (.wrapped "auth.Login" .errInvalidCredentials)
      ∧ (Auth.login stOne "a@x.com" "wrong" 1).res
        = (Auth.login stEmpty "b@x.com" "pw" 1).res :=
  login_unknown_user_wrong_password_same_error stEmpty "b@x.com" "pw" 1
    stOne "a@x.com" "wrong" 1 ⟨1, "a@x.com", generateFromPassword "pw123", []⟩
    rfl rfl rfl

/-- C2: SetRoles with any role outside the vocabulary returns the
invalid-roles failure, issues no store operation, and leaves the store
unchanged. -/
theorem setRoles_invalid_role_rejected
    (st : Store) (email : String) (roles : List String)
    (h : roles.all Auth.validRole = false) :
    (Auth.setRoles st email roles).res
        = .error (.strFormatted "auth.SetRoles" "invalid roles")
      ∧ (Auth.setRoles st email roles).store = st
      ∧ (Auth.setRoles st email roles).ops = [] := by
  refine ⟨?_, ?_, ?_⟩ <;> simp [Auth.setRoles, h]

/-- Witness for C2: the role list `["admin", "root"]` is rejected at the
sample store with no store operation. -/
theorem setRoles_invalid_role_rejected_witness :
    (Auth.setRoles stOne "a@x.com" ["admin", "root"]).res
        = .error (.strFormatted "auth.SetRoles" "invalid roles")
      ∧ (Auth.setRoles stOne "a@x.com" ["admin", "root"]).store = stOne
      ∧ (Auth.setRoles stOne "a@x.com" ["admin", "root"]).ops = [] :=
  setRoles_invalid_role_rejected stOne "a@x.com" ["admin", "root"] rfl

/-- C9: with a role outside the vocabulary and no user stored under the
email, SetRoles still returns the invalid-roles failure — vocabulary
validation runs before the store is consulted — and not the wrapped
`ErrInvalidCredentials` failure produced for user-not-found. -/
theorem setRoles_vocabulary_precedes_existence
    (st : Store) (email : String) (roles : List String)
    (h : roles.all Auth.validRole = false)
    (_habs : st.findUser email = none) :
    (Auth.setRoles st email roles).res
        = .error (.strFormatted "auth.SetRoles" "invalid roles")
      ∧ (Auth.setRoles st email roles).res
        ≠ .error (.wrapped "auth.SetRoles" .errInvalidCredentials) := by
  refine ⟨by simp [Auth.setRoles, h], ?_⟩
  simp [Auth.setRoles, h]

/-- Witness for C9: the role `"root"` for an email absent from the empty
store yields the invalid-roles failure. -/
theorem setRoles_vocabulary_precedes_existence_witness :
    (Auth.setRoles stEmpty "ghost@x.com" ["root"]).res
        = .error (.strFormatted "auth.SetRoles" "invalid roles")
      ∧ (Auth.setRoles stEmpty "ghost@x.com" ["root"]).res
        ≠ .error (.wrapped "auth.SetRoles" .errInvalidCredentials) :=
  setRoles_vocabulary_precedes_existence stEmpty "ghost@x.com" ["root"] rfl rfl

/-- C10: with every role in the vocabulary, SetRoles forwards the list to
the store verbatim — duplicates kept, order kept — and when the user
exists the stored role list becomes exactly the given list. -/
theorem setRoles_forwards_list_verbatim
    (st : Store) (email : String) (roles : List String)
    (h : roles.all Auth.validRole = true) :
    (Auth.setRoles st email roles).ops = [.setRolesW email roles]
      ∧ ((st.findUser email).isSome = true →
          (Auth.setRoles st email roles).store.findUser email
            = (st.findUser email).map (fun u => { u with roles := roles })) := by
  constructor
  · unfold Auth.setRoles Store.setRoles
    cases hf : st.findUser email <;> simp [h, hf]
  · intro hsome
    obtain ⟨u, hu⟩ := Option.isSome_iff_exists.mp hsome
    have hu' : st.users.find? (fun v => v.email == email) = some u := hu
    have hst1 : (Auth.setRoles st email roles).store
        = { st with
              users := st.users.map (fun v =>
                if v.email == email then { v with roles := roles } else v) } := by
      simp [Auth.setRoles, Store.setRoles, h, hu]
    rw [hst1, hu]
    simp only [Store.findUser]
    rw [find?_map_setRoles, hu']

/-- Witness for C10: a duplicated role list is forwarded and stored with
the duplicate intact. -/
theorem setRoles_forwards_list_verbatim_witness :
    (Auth.setRoles stOne "a@x.com" ["admin", "admin", "user"]).ops
        = [.setRolesW "a@x.com" ["admin", "admin", "user"]]
      ∧ ((stOne.findUser "a@x.com").isSome = true →
          (Auth.setRoles stOne "a@x.com" ["admin", "admin", "user"]).store.findUser "a@x.com"
            = (stOne.findUser "a@x.com").map
                (fun u => { u with roles := ["admin", "admin", "user"] })) :=
  setRoles_forwards_list_verbatim stOne "a@x.com" ["admin", "admin", "user"] rfl

/-- C4: the claim that the stored password hash is never written to the
log fails on the code: Login with a wrong password for a registered user
logs `string(user.PassHash)` (auth.go line 88).  At the sample store the
stored hash of `a@x.com` is the string `"bcrypt$pw123"`, and exactly that
string appears in the log of the failed login. -/
theorem login_wrong_password_logs_stored_hash :
    (stOne.findUser "a@x.com").map User.passHash = some "bcrypt$pw123"
      ∧ (Auth.login stOne "a@x.com" "wrong" 1).log
          = ["attempting to login user", "bcrypt$pw123"] :=
  ⟨rfl, rfl⟩

/-- C3 counterexample: at the sample store, a login with the correct
password but an app id with no stored app returns the wrapped storage
error `storage.ErrAppNotFound` — a failure value outside the spec's
four-kind taxonomy that still carries a storage-specific error value. -/
theorem login_app_fetch_leaks_storage_error :
    (Auth.login stOne "a@x.com" "pw123" 7).res
        = .error (.wrapped "auth.Login" .storageErrAppNotFound)
      ∧ specFourKindsOnly (.wrapped "auth.Login" .storageErrAppNotFound) = false
      ∧ carriesStorageError (.wrapped "auth.Login" .storageErrAppNotFound) = true :=
  ⟨rfl, rfl, rfl⟩

/-- C3 amended, for every operation of the core.  In Login the only
translated storage failure is user-not-found (to wrapped
`ErrInvalidCredentials`, which also covers the password mismatch), and
every other collaborator failure — user fetch, app fetch or token mint —
is propagated wrapped with the operation label, preserving the underlying
error value.  In RegisterNewUser and CreateApp the uniqueness conflict is
translated to wrapped `ErrUserExists` resp. `ErrAppExist`; in SetRoles an
out-of-vocabulary role yields the string-formatted invalid-roles failure
before the store is consulted; in SetRoles, GetRoles and DeleteUser the
user-not-found failure is translated to wrapped `ErrInvalidCredentials`;
and in each of these operations every other storage failure is propagated
wrapped with the operation label, preserving the underlying error
value. -/
theorem core_error_translation :
    (∀ (userRes : Except GoErr User) (password : String)
        (appRes : Except GoErr App) (mintRes : Except GoErr String)
        (err : GoErr),
        Auth.loginT userRes password appRes mintRes = .error err →
          err = .wrapped "auth.Login" .errInvalidCredentials
            ∨ ∃ e, err = .wrapped "auth.Login" e
                ∧ (userRes = .error e ∨ appRes = .error e ∨ mintRes = .error e))
      ∧ (Auth.registerT (.error .storageErrUserExist)
            = .error (.wrapped "auth.RegisterNewUser" .errUserExists)
          ∧ ∀ e : GoErr, e ≠ .storageErrUserExist →
              Auth.registerT (.error e)
                = .error (.wrapped "auth.RegisterNewUser" e))
      ∧ (Auth.createAppT (.error .storageErrAppExist)
            = .error (.wrapped "auth.NewApp" .errAppExist)
          ∧ ∀ e : GoErr, e ≠ .storageErrAppExist →
              Auth.createAppT (.error e) = .error (.wrapped "auth.NewApp" e))
      ∧ (∀ (roles : List String) (setRes : Except GoErr Unit),
          roles.all Auth.validRole = false →
            Auth.setRolesT roles setRes
              = .error (.strFormatted "auth.SetRoles" "invalid roles"))
      ∧ (∀ roles : List String, roles.all Auth.validRole = true →
          Auth.setRolesT roles (.error .storageErrUserNotFound)
              = .error (.wrapped "auth.SetRoles" .errInvalidCredentials)
            ∧ ∀ e : GoErr, e ≠ .storageErrUserNotFound →
                Auth.setRolesT roles (.error e)
                  = .error (.wrapped "auth.SetRoles" e))
      ∧ (Auth.getRolesT (.error .storageErrUserNotFound)
            = .error (.wrapped "auth.GetRoles" .errInvalidCredentials)
          ∧ ∀ e : GoErr, e ≠ .storageErrUserNotFound →
              Auth.getRolesT (.error e) = .error (.wrapped "auth.GetRoles" e))
      ∧ (Auth.deleteUserT (.error .storageErrUserNotFound)
            = .error (.wrapped "auth.GetRoles" .errInvalidCredentials)
          ∧ ∀ e : GoErr, e ≠ .storageErrUserNotFound →
              Auth.deleteUserT (.error e)
                = .error (.wrapped "auth.GetRoles" e)) := by
  refine ⟨?_, ⟨rfl, ?_⟩, ⟨rfl, ?_⟩, ?_, ?_, ⟨rfl, ?_⟩, ⟨rfl, ?_⟩⟩
  · intro userRes password appRes mintRes err h
    unfold Auth.loginT at h
    cases userRes with
    | error e =>
        by_cases he : e = .storageErrUserNotFound
        · simp [he] at h
          exact Or.inl h.symm
        · simp [he] at h
          exact Or.inr ⟨e, h.symm, Or.inl rfl⟩
    | ok user =>
        by_cases hc : compareHashAndPassword user.passHash password
        · simp [hc] at h
          cases appRes with
          | error e =>
              simp at h
              exact Or.inr ⟨e, h.symm, Or.inr (Or.inl rfl)⟩
          | ok a =>
              cases mintRes with
              | error e =>
                  simp at h
                  exact Or.inr ⟨e, h.symm, Or.inr (Or.inr rfl)⟩
              | ok tok => simp at h
        · simp [hc] at h
          exact Or.inl h.symm
  · intro e hne
    simp [Auth.registerT, hne]
  · intro e hne
    simp [Auth.createAppT, hne]
  · intro roles setRes hbad
    simp [Auth.setRolesT, hbad]
  · intro roles hok
    exact ⟨by simp [Auth.setRolesT, hok],
           fun e hne => by simp [Auth.setRolesT, hok, hne]⟩
  · intro e hne
    simp [Auth.getRolesT, hne]
  · intro e hne
    simp [Auth.deleteUserT, hne]

/-- Witness for the amended C3: a raw driver failure of the role write is
passed through wrapped with the operation label, the driver error still
reachable underneath. -/
theorem core_error_translation_witness :
    Auth.setRolesT ["admin"] (.error (.otherErr "io timeout"))
        = .error (.wrapped "auth.SetRoles" (.otherErr "io timeout")) :=
  (core_error_translation.2.2.2.2.1 ["admin"] rfl).2
    (.otherErr "io timeout") (by decide)

/-- C5: for an email with a stored user, DeleteUser succeeds; an
immediately following DeleteUser on the same email returns the wrapped
`ErrInvalidCredentials` failure, and so does DeleteUser on any store in
which the email is absent — deletion is failure-on-absence. -/
theorem deleteUser_not_idempotent
    (st : Store) (email : String) (h : (st.findUser email).isSome = true) :
    (Auth.deleteUser st email).res = .ok ()
      ∧ (Auth.deleteUser (Auth.deleteUser st email).store email).res
          = .error (.wrapped "auth.GetRoles" .errInvalidCredentials)
      ∧ ∀ st2 : Store, st2.findUser email = none →
          (Auth.deleteUser st2 email).res
            = .error (.wrapped "auth.GetRoles" .errInvalidCredentials) := by
  obtain ⟨u, hu⟩ := Option.isSome_iff_exists.mp h
  have hst1 : (Auth.deleteUser st email).store
      = { st with users := st.users.filter (fun v => v.email != email) } := by
    simp [Auth.deleteUser, Store.deleteUser, hu]
  refine ⟨?_, ?_, ?_⟩
  · simp [Auth.deleteUser, Store.deleteUser, hu]
  · rw [hst1]
    have hnone : Store.findUser
        { st with users := st.users.filter (fun v => v.email != email) } email
          = none := by
      simp only [Store.findUser]
      exact find?_filter_ne st.users email
    simp [Auth.deleteUser, Store.deleteUser, hnone]
  · intro st2 h2
    simp [Auth.deleteUser, Store.deleteUser, h2]

/-- Witness for C5: deleting `a@x.com` from the sample store succeeds
once and fails with the wrapped credentials error afterwards. -/
theorem deleteUser_not_idempotent_witness :
    (Auth.deleteUser stOne "a@x.com").res = .ok ()
      ∧ (Auth.deleteUser (Auth.deleteUser stOne "a@x.com").store "a@x.com").res
          = .error (.wrapped "auth.GetRoles" .errInvalidCredentials)
      ∧ ∀ st2 : Store, st2.findUser "a@x.com" = none →
          (Auth.deleteUser st2 "a@x.com").res
            = .error (.wrapped "auth.GetRoles" .errInvalidCredentials) :=
  deleteUser_not_idempotent stOne "a@x.com" rfl

/-- C6: RegisterNewUser translates the store's uniqueness conflict on the
email to wrapped `ErrUserExists`; any other storage-layer save failure
comes back as a failure of the spec's catch-all `Internal` kind; and a
successful save returns exactly the identifier the store assigned. -/
theorem registerNewUser_error_taxonomy
    (e : GoErr) (uid : Int)
    (he : storageLayer e = true) (hne : e ≠ .storageErrUserExist) :
    Auth.registerT (.error .storageErrUserExist)
        = .error (.wrapped "auth.RegisterNewUser" .errUserExists)
      ∧ (∃ err, Auth.registerT (.error e) = .error err
          ∧ specKind err = .internal)
      ∧ Auth.registerT (.ok uid) = .ok uid := by
  refine ⟨rfl, ⟨.wrapped "auth.RegisterNewUser" e, ?_, ?_⟩, rfl⟩
  · simp [Auth.registerT, hne]
  · simp only [specKind, GoErr.unwrapLabels, storageLayer_unwrapLabels e he]
    cases e <;> simp_all [storageLayer, specKind, GoErr.unwrapLabels]

/-- Witness for C6: a raw driver failure of the save comes back as an
`Internal`-kind failure; a conflict comes back as `UserExists`; success
returns the assigned id 5. -/
theorem registerNewUser_error_taxonomy_witness :
    Auth.registerT (.error .storageErrUserExist)
        = .error (.wrapped "auth.RegisterNewUser" .errUserExists)
      ∧ (∃ err, Auth.registerT (.error (.otherErr "disk")) = .error err
          ∧ specKind err = .internal)
      ∧ Auth.registerT (.ok 5) = .ok 5 :=
  registerNewUser_error_taxonomy (.otherErr "disk") 5 rfl (by decide)

/-- C7: for a stored user, SetRoles with the empty role list succeeds,
and a following GetRoles for the same email returns the empty list. -/
theorem setRoles_empty_then_getRoles_empty
    (st : Store) (email : String) (h : (st.findUser email).isSome = true) :
    (Auth.setRoles st email []).res = .ok ()
      ∧ (Auth.getRoles (Auth.setRoles st email []).store email).res
          = .ok [] := by
  obtain ⟨u, hu⟩ := Option.isSome_iff_exists.mp h
  have hu' : st.users.find? (fun v => v.email == email) = some u := hu
  have hst1 : (Auth.setRoles st email []).store
      = { st with
            users := st.users.map (fun v =>
              if v.email == email then { v with roles := [] } else v) } := by
    simp [Auth.setRoles, Store.setRoles, hu]
  have hfind : (Auth.setRoles st email []).store.findUser email
      = some { u with roles := [] } := by
    rw [hst1]
    simp only [Store.findUser]
    rw [find?_map_setRoles, hu']
    rfl
  refine ⟨?_, ?_⟩
  · simp [Auth.setRoles, Store.setRoles, hu]
  · simp [Auth.getRoles, Store.getRoles, hfind]

/-- Witness for C7: clearing the roles of `a@x.com` in the sample store
succeeds and the next GetRoles returns the empty list. -/
theorem setRoles_empty_then_getRoles_empty_witness :
    (Auth.setRoles stOne "a@x.com" []).res = .ok ()
      ∧ (Auth.getRoles (Auth.setRoles stOne "a@x.com" []).store "a@x.com").res
          = .ok [] :=
  setRoles_empty_then_getRoles_empty stOne "a@x.com" rfl

/-- C8: Login never mutates the store and issues only read operations
against it, for every input and on every path, success and failure
alike. -/
theorem login_reads_only (st : Store) (email password : String) (appID : Int) :
    (Auth.login st email password appID).store = st
      ∧ (Auth.login st email password appID).ops.all StoreOp.isRead = true := by
  cases hu : st.user email with
  | error e =>
      by_cases he : e = .storageErrUserNotFound <;>
        simp [Auth.login, hu, he, StoreOp.isRead]
  | ok user =>
      by_cases hc : compareHashAndPassword user.passHash password
      · cases ha : st.app appID with
        | error e2 => simp [Auth.login, hu, hc, ha, StoreOp.isRead]
        | ok a => simp [Auth.login, hu, hc, ha, newToken, StoreOp.isRead]
      · simp [Auth.login, hu, hc, StoreOp.isRead]
